import Mathlib

/-!
Shallow embedding of the airthings node exporter (src/index.js, first copy;
the text after the separator is the legacy duplicate excluded by the spec).

JavaScript objects with string keys are modelled as association lists in
insertion order: property assignment updates the first matching key in place
and appends a fresh key at the end, exactly as JS object semantics for string
keys.  Network and file effects are passed in explicitly: every upstream call
is a value of type `Except JsError (Option payload)` where `.error` models a
thrown exception that the surrounding JS code did not catch at that point and
`.ok none` models the `null` that `getData` returns when its own try/catch
absorbs a fetch failure.  `Date.parse`, `new Date(...)` rendering and the
current instant are parameters, since no claim depends on their values.
-/

namespace Airthings

/-- JS property read `obj[k]`: first entry with the key, if any. -/
def getKey : List (String × α) → String → Option α
  | [], _ => none
  | p :: ps, k => if p.1 = k then some p.2 else getKey ps k

/-- JS property assignment `obj[k] = v`: overwrite the existing key in place,
otherwise append at the end (insertion order is preserved). -/
def setKey : List (String × α) → String → α → List (String × α)
  | [], k, v => [(k, v)]
  | p :: ps, k, v => if p.1 = k then (k, v) :: ps else p :: setKey ps k v

/-- JS `Object.values(obj)`. -/
def vals (m : List (String × α)) : List α := m.map Prod.snd

/-- A JS exception escaping a function. -/
inductive JsError
  | typeError
  | authError
deriving DecidableEq

/-- Embeds `device.location` in the upstream payload. -/
structure Location where
  name : String
deriving DecidableEq

/-- Embeds `device.segment` in the upstream payload (raw, `started` still a string). -/
structure Segment where
  name : String
  started : String
deriving DecidableEq

/-- One element of the upstream `devices` list. -/
structure Device where
  id : String
  deviceType : String
  location : Location
  segment : Segment
deriving DecidableEq

/-- Embeds `device.segment` after `decorateDevice` parsed `started` into a Date. -/
structure DecSegment where
  name : String
  started : Int
deriving DecidableEq

/-- A decorated device, as stored in the `detectors` map. -/
structure Detector where
  id : String
  deviceType : String
  location : Location
  segment : DecSegment
deriving DecidableEq

/-- Embeds `const deviceIsNotAHub = (device) => device.deviceType !== 'HUB';` -/
def deviceIsNotAHub (d : Device) : Bool := d.deviceType != "HUB"

/-- Embeds `decorateDevice`: copies the device and replaces `segment.started` with the
parsed instant; `dateParse` stands for the JS `Date.parse` + `new Date`. -/
def decorateDevice (dateParse : String → Int) (d : Device) : Detector :=
  { id := d.id
    deviceType := d.deviceType
    location := d.location
    segment := { name := d.segment.name, started := dateParse d.segment.started } }

/-- A latest-samples object: metric name to rendered value, insertion order.
Values are modelled by their string rendering, which is all the exporter uses. -/
abbrev SampleSet := List (String × String)

/-- One entry of the samples cache: the decorated device fields spread together
with a `latestSamples` property.  `latestSamples` is an `Option` because a
cache document loaded from disk may lack it (`null`/absent). -/
structure CacheEntry where
  dev : Detector
  latestSamples : Option SampleSet
deriving DecidableEq

/-- The in-memory samples cache: device id to cache entry. -/
abbrev Cache := List (String × CacheEntry)

/-- Embeds `const notMetrics = ['time', 'relayDeviceType'];` -/
def notMetrics : List String := ["time", "relayDeviceType"]

/-- Embeds `metricToString`: one exposition line for one sample field. -/
def metricToString (d : Detector) (m : String × String) : String :=
  "airthings_" ++ m.1 ++ "\x7bdevice_id=\"" ++ d.id ++ "\",device_location=\""
    ++ d.location.name ++ "\",device_segment=\"" ++ d.segment.name ++ "\"\x7d " ++ m.2

/-- The upstream/environment a refresh runs against.  `devicesCall` is the
outcome of `getData('devices', ...)`: `.error` models an exception thrown
before or inside `getData` that its try/catch does not absorb (for example an
auth failure rethrown by `ensureFreshToken`); `.ok none` is the `null` that
`getData` returns when the HTTP fetch fails; `.ok (some devices)` is the
parsed `payload.devices` list.  `samplesCall id` is the outcome of
`getData('devices/id/latest-samples', ...)` with `.ok (some data)` the parsed
`payload.data` object.  `dateParse` models `Date.parse`; `sampleTime` models
the string rendering of `new Date(parseInt(data.time, 10) * 1000.0)` as a
function of the raw `data.time` property (absent property included). -/
structure Upstream where
  devicesCall : Except JsError (Option (List Device))
  samplesCall : String → Except JsError (Option SampleSet)
  dateParse : String → Int
  sampleTime : Option String → String

/-- Embeds `Promise.all` over a list of independent calls: the results in order, or
the first rejection. -/
def mapExcept (f : α → Except ε β) : List α → Except ε (List β)
  | [] => .ok []
  | a :: as =>
    match f a with
    | .error e => .error e
    | .ok b =>
      match mapExcept f as with
      | .error e => .error e
      | .ok bs => .ok (b :: bs)

/-- The body mapped over `Object.values(detectors)` in `refreshMetrics`: fetch
the detector's latest samples; on success pair the detector id with the data
object whose `time` property is overwritten by the parsed sample instant; a
failed fetch yields the `[null, null]` marker, modelled as `none`. -/
def fetchOne (env : Upstream) (det : Detector) :
    Except JsError (Option (String × SampleSet)) :=
  match env.samplesCall det.id with
  | .error e => .error e
  | .ok none => .ok none
  | .ok (some data) =>
      .ok (some (det.id, setKey data "time" (env.sampleTime (getKey data "time"))))

/-- Embeds `devices.filter(deviceIsNotAHub).reduce((acc, device) => (acc with
device.id set to the decorated device), empty)`. -/
def buildDetectors (dateParse : String → Int) (devices : List Device) :
    List (String × Detector) :=
  (devices.filter deviceIsNotAHub).foldl
    (fun acc d => setKey acc d.id (decorateDevice dateParse d)) []

/-- Fallback for the `detectors[id]` lookup in the merge; the id of every
fetched pair is a key of `detectors`, so it is never actually used (in JS the
spread of the `undefined` lookup would simply contribute no fields). -/
def defaultDetector : Detector :=
  { id := "", deviceType := "", location := { name := "" }
    segment := { name := "", started := 0 } }

/-- The merge loop of `refreshMetrics`: drop the null markers, then for each
fetched `[id, samples]` overwrite the cache entry under `id` with the
decorated device fields plus the fresh samples. -/
def mergeSamples (detectors : List (String × Detector))
    (fetched : List (Option (String × SampleSet))) (prior : Cache) : Cache :=
  (fetched.filterMap id).foldl
    (fun acc p =>
      setKey acc p.1
        { dev := (getKey detectors p.1).getD defaultDetector
          latestSamples := some p.2 })
    prior

/-- Embeds `refreshMetrics(accessToken, cachedLatestSamples, client)`.  The deep copy
of the prior cache is value semantics here.  A falsy devices payload aborts
with the prior cache; the try/catch around `Promise.all` absorbs a rejection
by skipping the merge; `persistLatestSamples` (modelled separately) never
affects the returned value. -/
def refreshMetrics (env : Upstream) (prior : Cache) : Except JsError Cache :=
  let latestSamples := prior
  match env.devicesCall with
  | .error e => .error e
  | .ok none => .ok latestSamples
  | .ok (some devices) =>
    let detectors := buildDetectors env.dateParse devices
    match mapExcept (fetchOne env) (vals detectors) with
    | .error _ => .ok latestSamples
    | .ok fetched => .ok (mergeSamples detectors fetched latestSamples)

/-- One step of the rendering `reduce`: `Object.entries(detector.latestSamples)`
throws a `TypeError` when `latestSamples` is null or absent; otherwise the
non-reserved fields are formatted and appended to the accumulator. -/
def renderStep (acc : Except JsError (List String)) (p : String × CacheEntry) :
    Except JsError (List String) :=
  match acc with
  | .error e => .error e
  | .ok ls =>
    match p.2.latestSamples with
    | none => .error .typeError
    | some samples =>
        .ok (ls ++ (samples.filter fun m => !(notMetrics.contains m.1)).map
          (metricToString p.2.dev))

/-- The metrics-producing `reduce` at the end of `getMetrics`. -/
def renderCache (cache : Cache) : Except JsError (List String) :=
  cache.foldl renderStep (.ok [])

/-- The on-disk samples document as loaded by `getPersistedLatestSamples`:
`persistedAt` is the parsed persisted-at instant (`none` when the property is
absent or falsy), `samples` the cached map. -/
structure SampleDoc where
  persistedAt : Option Int
  samples : Cache
deriving DecidableEq

/-- The cache-decision block of `getMetrics`: returns the `useCache` flag and
the value of `cachedLatestSamples` after the block.  Note that the code reads
`persistedSamplesResponse.samples` only inside the `if (persistedAt)` branch,
and that the age test `latestSamplesCacheAge && age <= cacheLatestSamplesForMs`
makes an age of exactly zero falsy. -/
def scrapeCacheState (now ttlMs : Int) (doc : Option SampleDoc) : Bool × Cache :=
  match doc with
  | none => (false, [])
  | some d =>
    match d.persistedAt with
    | none => (false, [])
    | some t =>
      let age : Int := now - t
      ((age != 0) && decide (age ≤ ttlMs), d.samples)

/-- Embeds `getMetrics` after the token was obtained: decide cache hit, refresh on a
miss, render the resulting cache. -/
def getMetrics (env : Upstream) (now ttlMs : Int) (doc : Option SampleDoc) :
    Except JsError (List String) :=
  let st := scrapeCacheState now ttlMs doc
  if st.1 then renderCache st.2
  else
    match refreshMetrics env st.2 with
    | .error e => .error e
    | .ok c => renderCache c

/-- A persisted OAuth2 access token record; `expiresAt` is the expiry instant
the `expired()` library call compares against the current time. -/
structure TokenRec where
  access_token : String
  expiresAt : Int
deriving DecidableEq

/-- Embeds `accessToken.expired()` of simple-oauth2: pure comparison of the stored
expiry instant with the current time. -/
def tokenExpired (t : TokenRec) (now : Int) : Bool := decide (t.expiresAt ≤ now)

/-- Environment for the token functions: the persisted token the store returns
(`none` on missing/corrupt file) and the outcome of `client.getToken`. -/
structure TokenEnv where
  persisted : Option TokenRec
  exchange : Except JsError TokenRec

/-- Result of a token operation: the token handed back, how many exchanges
were performed against the auth endpoint, and the tokens persisted to disk. -/
structure TokenOutcome where
  token : TokenRec
  exchanges : Nat
  persistedTokens : List TokenRec
deriving DecidableEq

/-- Embeds `login(client)`: a persisted token is reconstructed with `createToken` and
returned as is, with no expiry check, no exchange and no persist; only when no
token is persisted is one exchange performed and its result persisted. -/
def login (env : TokenEnv) : Except JsError TokenOutcome :=
  match env.persisted with
  | some t => .ok { token := t, exchanges := 0, persistedTokens := [] }
  | none =>
    match env.exchange with
    | .error e => .error e
    | .ok t => .ok { token := t, exchanges := 1, persistedTokens := [t] }

/-- Embeds `ensureFreshToken(accessToken, client)`: on an expired token perform one
exchange and persist the result, rethrowing a failure; otherwise return the
input unchanged. -/
def ensureFreshToken (t : TokenRec) (now : Int) (env : TokenEnv) :
    Except JsError TokenOutcome :=
  if tokenExpired t now then
    match env.exchange with
    | .error e => .error e
    | .ok t2 => .ok { token := t2, exchanges := 1, persistedTokens := [t2] }
  else .ok { token := t, exchanges := 0, persistedTokens := [] }

/-- Embeds `persistAccessToken`: the `fs.writeFileSync` outcome is the argument; a
write failure is caught and logged, so the function never throws. -/
def persistAccessToken (write : Except Unit Unit) : Except JsError Unit :=
  match write with
  | .ok _ => .ok ()
  | .error _ => .ok ()

/-- Embeds `getPersistedAccesstoken`: the combined `readFileSync` + `JSON.parse`
outcome is the argument; any failure is caught and turned into `null`. -/
def getPersistedAccesstoken (read : Except Unit TokenRec) :
    Except JsError (Option TokenRec) :=
  match read with
  | .error _ => .ok none
  | .ok t => .ok (some t)

/-- Embeds `persistLatestSamples`: same absorption as `persistAccessToken`. -/
def persistLatestSamples (write : Except Unit Unit) : Except JsError Unit :=
  match write with
  | .ok _ => .ok ()
  | .error _ => .ok ()

/-- Embeds `getPersistedLatestSamples`: same absorption as `getPersistedAccesstoken`. -/
def getPersistedLatestSamples (read : Except Unit SampleDoc) :
    Except JsError (Option SampleDoc) :=
  match read with
  | .error _ => .ok none
  | .ok d => .ok (some d)

/-! Helper lemmas about the JS object model and the refresh pipeline. -/

theorem getKey_setKey (m : List (String × α)) (k k' : String) (v : α) :
    getKey (setKey m k v) k' = if k' = k then some v else getKey m k' := by
  induction m with
  | nil =>
    by_cases h : k' = k
    · subst h; simp [setKey, getKey]
    · have hk : ¬(k = k') := fun hh => h hh.symm
      simp [setKey, getKey, h, hk]
  | cons p ps ih =>
    by_cases hpk : p.1 = k
    · subst hpk
      by_cases h : k' = p.1
      · subst h; simp [setKey, getKey]
      · have hk : ¬(p.1 = k') := fun hh => h hh.symm
        simp [setKey, getKey, h, hk]
    · by_cases h : k' = k
      · subst h
        simp [setKey, getKey, hpk, ih]
      · simp [setKey, getKey, hpk, ih, h]

theorem mem_vals_setKey {m : List (String × α)} {k : String} {x v : α}
    (h : v ∈ vals (setKey m k x)) : v = x ∨ v ∈ vals m := by
  induction m with
  | nil =>
    simp [setKey, vals] at h
    exact Or.inl h
  | cons p ps ih =>
    by_cases hp : p.1 = k
    · simp [setKey, hp, vals] at h ⊢
      rcases h with h | h
      · exact Or.inl h
      · exact Or.inr (Or.inr h)
    · simp [setKey, hp, vals] at h ⊢
      rcases h with h | h
      · exact Or.inr (Or.inl h)
      · rcases ih (by simpa [vals] using h) with h2 | h2
        · exact Or.inl h2
        · exact Or.inr (Or.inr (by simpa [vals] using h2))

theorem getKey_foldl_setKey {β : Type} (key : β → String) (f : β → α) :
    ∀ (l : List β) (acc : List (String × α)) (k : String),
      (∀ b ∈ l, key b ≠ k) →
      getKey (l.foldl (fun a b => setKey a (key b) (f b)) acc) k = getKey acc k := by
  intro l
  induction l with
  | nil => intro acc k _; rfl
  | cons b bs ih =>
    intro acc k h
    simp only [List.foldl_cons]
    rw [ih _ _ (fun x hx => h x (List.mem_cons_of_mem _ hx))]
    rw [getKey_setKey]
    exact if_neg (fun hh => h b (List.mem_cons_self _ _) hh.symm)

theorem isSome_getKey_foldl_setKey {β : Type} (key : β → String) (f : β → α) :
    ∀ (l : List β) (acc : List (String × α)) (k : String),
      (getKey acc k).isSome →
      (getKey (l.foldl (fun a b => setKey a (key b) (f b)) acc) k).isSome := by
  intro l
  induction l with
  | nil => intro acc k h; exact h
  | cons b bs ih =>
    intro acc k h
    simp only [List.foldl_cons]
    apply ih
    rw [getKey_setKey]
    by_cases h2 : k = key b
    · simp [h2]
    · simpa [h2] using h

theorem mem_vals_buildDetectors {dp : String → Int} {devices : List Device}
    {det : Detector} (h : det ∈ vals (buildDetectors dp devices)) :
    ∃ d, d ∈ devices ∧ deviceIsNotAHub d = true ∧ det = decorateDevice dp d := by
  have aux : ∀ (ds : List Device) (acc : List (String × Detector)),
      det ∈ vals (ds.foldl (fun a d => setKey a d.id (decorateDevice dp d)) acc) →
      det ∈ vals acc ∨ ∃ d ∈ ds, det = decorateDevice dp d := by
    intro ds
    induction ds with
    | nil => intro acc h2; exact Or.inl h2
    | cons d ds ih =>
      intro acc h2
      simp only [List.foldl_cons] at h2
      rcases ih _ h2 with h3 | ⟨d2, hd2, he⟩
      · rcases mem_vals_setKey h3 with h4 | h4
        · exact Or.inr ⟨d, List.mem_cons_self _ _, h4⟩
        · exact Or.inl h4
      · exact Or.inr ⟨d2, List.mem_cons_of_mem _ hd2, he⟩
  rcases aux _ _ h with h2 | ⟨d, hd, he⟩
  · simp [vals] at h2
  · have := List.mem_filter.mp hd
    exact ⟨d, this.1, this.2, he⟩

theorem mapExcept_ok_mem {f : α → Except ε β} :
    ∀ {l : List α} {out : List β}, mapExcept f l = .ok out →
      ∀ b ∈ out, ∃ a ∈ l, f a = .ok b := by
  intro l
  induction l with
  | nil =>
    intro out h b hb
    simp only [mapExcept, Except.ok.injEq] at h
    subst h
    simp at hb
  | cons a as ih =>
    intro out h b hb
    simp only [mapExcept] at h
    cases hfa : f a with
    | error e => rw [hfa] at h; simp at h
    | ok b0 =>
      rw [hfa] at h
      cases hrest : mapExcept f as with
      | error e => rw [hrest] at h; simp at h
      | ok bs =>
        rw [hrest] at h
        simp only [Except.ok.injEq] at h
        subst h
        rcases List.mem_cons.mp hb with h2 | h2
        · exact ⟨a, List.mem_cons_self _ _, h2 ▸ hfa⟩
        · rcases ih hrest b h2 with ⟨a2, ha2, he⟩
          exact ⟨a2, List.mem_cons_of_mem _ ha2, he⟩

theorem fetchOne_ok_some {env : Upstream} {det : Detector} {p : String × SampleSet}
    (h : fetchOne env det = .ok (some p)) : p.1 = det.id := by
  unfold fetchOne at h
  cases hs : env.samplesCall det.id with
  | error e => rw [hs] at h; simp at h
  | ok o =>
    rw [hs] at h
    cases o with
    | none => simp at h
    | some data =>
      simp only [Except.ok.injEq, Option.some.injEq] at h
      rw [← h]

theorem refreshMetrics_untouched {env : Upstream} {prior c : Cache} {k : String}
    (hc : refreshMetrics env prior = .ok c)
    (h : ∀ devices, env.devicesCall = .ok (some devices) →
          ∀ det ∈ vals (buildDetectors env.dateParse devices), det.id ≠ k) :
    getKey c k = getKey prior k := by
  unfold refreshMetrics at hc
  cases hd : env.devicesCall with
  | error e => rw [hd] at hc; simp at hc
  | ok o =>
    rw [hd] at hc
    cases o with
    | none =>
      simp only [Except.ok.injEq] at hc
      rw [← hc]
    | some devices =>
      simp only at hc
      cases hm : mapExcept (fetchOne env) (vals (buildDetectors env.dateParse devices)) with
      | error e =>
        rw [hm] at hc
        simp only [Except.ok.injEq] at hc
        rw [← hc]
      | ok fetched =>
        rw [hm] at hc
        simp only [Except.ok.injEq] at hc
        rw [← hc]
        unfold mergeSamples
        apply getKey_foldl_setKey Prod.fst
        intro p hp
        rcases List.mem_filterMap.mp hp with ⟨op, hop, hsome⟩
        have hop2 : op = some p := hsome
        subst hop2
        rcases mapExcept_ok_mem hm (some p) hop with ⟨det, hdet, hfo⟩
        have hid := fetchOne_ok_some hfo
        rw [hid]
        exact h devices hd det hdet

/-- The lines one cache entry contributes to the rendered output, assuming its
`latestSamples` is present. -/
def entryLines (p : String × CacheEntry) : List String :=
  ((p.2.latestSamples.getD []).filter fun m => !(notMetrics.contains m.1)).map
    (metricToString p.2.dev)

theorem foldl_renderStep_present :
    ∀ (cache : Cache) (ls : List String),
      (∀ p ∈ cache, p.2.latestSamples ≠ none) →
      cache.foldl renderStep (.ok ls) = .ok (ls ++ cache.flatMap entryLines) := by
  intro cache
  induction cache with
  | nil => intro ls _; simp
  | cons p rest ih =>
    intro ls h
    have hp := h p (List.mem_cons_self _ _)
    cases hs : p.2.latestSamples with
    | none => exact absurd hs hp
    | some samples =>
      simp only [List.foldl_cons, renderStep, hs]
      rw [ih _ (fun q hq => h q (List.mem_cons_of_mem _ hq))]
      simp [entryLines, hs, List.append_assoc]

theorem renderCache_present {cache : Cache}
    (h : ∀ p ∈ cache, p.2.latestSamples ≠ none) :
    renderCache cache = .ok (cache.flatMap entryLines) := by
  unfold renderCache
  simpa using foldl_renderStep_present cache [] h

theorem refreshMetrics_keys_grow {env : Upstream} {prior c : Cache}
    (hc : refreshMetrics env prior = .ok c) (k : String)
    (h : (getKey prior k).isSome) : (getKey c k).isSome := by
  unfold refreshMetrics at hc
  cases hd : env.devicesCall with
  | error e => rw [hd] at hc; simp at hc
  | ok o =>
    rw [hd] at hc
    cases o with
    | none =>
      simp only [Except.ok.injEq] at hc
      rw [← hc]; exact h
    | some devices =>
      simp only at hc
      cases hm : mapExcept (fetchOne env) (vals (buildDetectors env.dateParse devices)) with
      | error e =>
        rw [hm] at hc
        simp only [Except.ok.injEq] at hc
        rw [← hc]; exact h
      | ok fetched =>
        rw [hm] at hc
        simp only [Except.ok.injEq] at hc
        rw [← hc]
        unfold mergeSamples
        exact isSome_getKey_foldl_setKey Prod.fst _ _ _ _ h

/-! Concrete fixtures used by counterexamples and witnesses. -/

/-- A concrete decorated detector. -/
def sampleDetector : Detector :=
  { id := "dev1", deviceType := "VIEW", location := { name := "Kitchen" }
    segment := { name := "Home", started := 0 } }

/-- A concrete cache entry with sample data present. -/
def sampleEntry : CacheEntry :=
  { dev := sampleDetector, latestSamples := some [("radon", "4")] }

/-- A concrete one-detector cache. -/
def sampleCache : Cache := [("dev1", sampleEntry)]

/-- An upstream environment whose device-list fetch fails (getData returns
null) and whose per-device fetches all fail. -/
def envDevicesFail : Upstream :=
  { devicesCall := .ok none
    samplesCall := fun _ => .ok none
    dateParse := fun _ => 0
    sampleTime := fun _ => "" }

/-- A concrete persisted token. -/
def tokA : TokenRec := { access_token := "a", expiresAt := 5 }

/-- A concrete token the auth exchange would return. -/
def tokB : TokenRec := { access_token := "b", expiresAt := 100 }

/-- Token environment: `tokA` persisted, exchange would yield `tokB`. -/
def tokenEnvAB : TokenEnv := { persisted := some tokA, exchange := .ok tokB }

/-! Claim theorems. -/

/-- C2 counterexample: a cache document persisted at the very instant of the
scrape (age exactly 0 ms) satisfies the claim's freshness condition
`now - T <= W`, yet the code's decision is false (no cache hit), because the
truthiness test `latestSamplesCacheAge && ...` treats an age of 0 as missing. -/
theorem cache_decision_zero_age :
    (scrapeCacheState 1000 300000
        (some { persistedAt := some 1000, samples := [] })).1 = false ∧
    ((1000 : Int) - 1000 ≤ 300000) := by
  exact ⟨rfl, by decide⟩

/-- C2 (amended): the cache-hit decision is true iff a document loaded, its
persisted-at instant T is present, and the age now - T is both nonzero and at
most the TTL; an age of exactly 0 ms is treated as stale and triggers a
refresh. -/
theorem cache_decision_characterization (now ttlMs : Int) (doc : Option SampleDoc) :
    (scrapeCacheState now ttlMs doc).1 = true ↔
      ∃ d, doc = some d ∧ ∃ t, d.persistedAt = some t ∧
        now - t ≠ 0 ∧ now - t ≤ ttlMs := by
  cases doc with
  | none => simp [scrapeCacheState]
  | some d =>
    cases hp : d.persistedAt with
    | none => simp [scrapeCacheState, hp]
    | some t => simp [scrapeCacheState, hp]

/-- C3 counterexample: a loaded document that has samples but no persisted-at
timestamp seeds the refresh with the empty map, not with its samples map — the
assignment `cachedLatestSamples = persistedSamplesResponse.samples` only runs
inside the `if (persistedAt)` branch. -/
theorem refresh_seed_untimestamped_dropped :
    (scrapeCacheState 500 300000
        (some { persistedAt := none, samples := sampleCache })).2 = [] ∧
    sampleCache ≠ [] := by
  exact ⟨rfl, by decide⟩

/-- C3 (amended): the refresh seed is the loaded document's samples map when a
document is present and carries a persisted-at timestamp (fresh or stale); it
is the empty map when no document loads or the document lacks persisted-at. -/
theorem refresh_seed_characterization (now ttlMs : Int) (doc : Option SampleDoc) :
    (scrapeCacheState now ttlMs doc).2 =
      match doc with
      | none => []
      | some d =>
        match d.persistedAt with
        | none => []
        | some _ => d.samples := by
  cases doc with
  | none => rfl
  | some d => cases hp : d.persistedAt <;> simp [scrapeCacheState, hp]

/-- C4 counterexample: with a persisted token whose expiry (5) is in the past
(now = 10), login performs zero exchanges, persists nothing, and hands back
the expired token unchanged — not the claimed one exchange and one persist. -/
theorem login_returns_expired_token :
    login tokenEnvAB =
      .ok { token := tokA, exchanges := 0, persistedTokens := [] } ∧
    tokenExpired tokA 10 = true := by
  exact ⟨rfl, by decide⟩

/-- C4 (amended): login returns a persisted token as is, with no expiry check,
no exchange and no persist; only when no token is persisted does it perform
one exchange and persist that one token.  The expiry handling lives in
ensureFreshToken, which given an expired token performs exactly one exchange
and persists exactly one new token, and given an unexpired token returns it
with no exchange. -/
theorem token_lifecycle (env : TokenEnv) (t t2 : TokenRec) (now : Int) :
    (env.persisted = some t →
      login env = .ok { token := t, exchanges := 0, persistedTokens := [] }) ∧
    (env.persisted = none → env.exchange = .ok t2 →
      login env = .ok { token := t2, exchanges := 1, persistedTokens := [t2] }) ∧
    (tokenExpired t now = true → env.exchange = .ok t2 →
      ensureFreshToken t now env =
        .ok { token := t2, exchanges := 1, persistedTokens := [t2] }) ∧
    (tokenExpired t now = false →
      ensureFreshToken t now env =
        .ok { token := t, exchanges := 0, persistedTokens := [] }) := by
  refine ⟨fun h => ?_, fun h1 h2 => ?_, fun h1 h2 => ?_, fun h1 => ?_⟩
  · simp [login, h]
  · simp [login, h1, h2]
  · simp [ensureFreshToken, h1, h2]
  · simp [ensureFreshToken, h1]

/-- C4 witness: the amended lifecycle at the concrete environment. -/
theorem token_lifecycle_witness :
    login tokenEnvAB = .ok { token := tokA, exchanges := 0, persistedTokens := [] } ∧
    ensureFreshToken tokA 10 tokenEnvAB =
      .ok { token := tokB, exchanges := 1, persistedTokens := [tokB] } :=
  ⟨(token_lifecycle tokenEnvAB tokA tokB 10).1 rfl,
   (token_lifecycle tokenEnvAB tokA tokB 10).2.2.1 (by decide) rfl⟩

/-- C5: when the upstream device-list call fails (getData returns null), the
refresh aborts and returns the prior cache unchanged, as a normal value — no
exception escapes to the caller. -/
theorem refresh_devicelist_failure_returns_prior (env : Upstream) (prior : Cache)
    (h : env.devicesCall = .ok none) :
    refreshMetrics env prior = .ok prior := by
  unfold refreshMetrics
  rw [h]

/-- C5 witness: device-list failure at a concrete prior cache. -/
theorem refresh_devicelist_failure_witness :
    refreshMetrics envDevicesFail sampleCache = .ok sampleCache :=
  refresh_devicelist_failure_returns_prior envDevicesFail sampleCache rfl

/-- C9: persistence never propagates a failure — both save functions absorb
any write failure and return normally, and both load functions turn a missing
file or parse failure into an absent result, never an exception. -/
theorem persistence_never_propagates :
    (∀ w, persistAccessToken w = .ok ()) ∧
    (∀ w, persistLatestSamples w = .ok ()) ∧
    (∀ e, getPersistedAccesstoken (.error e) = .ok none) ∧
    (∀ t, getPersistedAccesstoken (.ok t) = .ok (some t)) ∧
    (∀ e, getPersistedLatestSamples (.error e) = .ok none) ∧
    (∀ d, getPersistedLatestSamples (.ok d) = .ok (some d)) := by
  refine ⟨fun w => ?_, fun w => ?_, fun e => rfl, fun t => rfl, fun e => rfl,
    fun d => rfl⟩
  · cases w with
    | ok u => rfl
    | error e => rfl
  · cases w with
    | ok u => rfl
    | error e => rfl

/-- C1: with detectors A and B both in the upstream device list, a successful
latest-samples fetch for A and a failed (null) fetch for B, the refreshed
cache overwrites A's entry with the freshly fetched samples (the decorated
device fields plus the data object with its `time` field replaced) and leaves
B's entry exactly equal to its entry in the prior cache. -/
theorem refresh_partial_failure_preserves
    (env : Upstream) (prior : Cache) (dA dB : Device) (sa : SampleSet)
    (hne : dA.id ≠ dB.id)
    (hA : deviceIsNotAHub dA = true) (hB : deviceIsNotAHub dB = true)
    (hdev : env.devicesCall = .ok (some [dA, dB]))
    (hsA : env.samplesCall dA.id = .ok (some sa))
    (hsB : env.samplesCall dB.id = .ok none)
    (hpA : (getKey prior dA.id).isSome) (hpB : (getKey prior dB.id).isSome) :
    ∃ c, refreshMetrics env prior = .ok c ∧
      getKey c dA.id = some ⟨decorateDevice env.dateParse dA,
        some (setKey sa "time" (env.sampleTime (getKey sa "time")))⟩ ∧
      getKey c dB.id = getKey prior dB.id := by
  have hdet : buildDetectors env.dateParse [dA, dB] =
      [(dA.id, decorateDevice env.dateParse dA),
       (dB.id, decorateDevice env.dateParse dB)] := by
    simp [buildDetectors, List.filter_cons, hA, hB, List.foldl_cons, setKey, hne]
  have hfetch : mapExcept (fetchOne env)
      [decorateDevice env.dateParse dA, decorateDevice env.dateParse dB] =
      .ok [some (dA.id, setKey sa "time" (env.sampleTime (getKey sa "time"))), none] := by
    simp [mapExcept, fetchOne, decorateDevice, hsA, hsB]
  have hrun : refreshMetrics env prior =
      .ok (setKey prior dA.id ⟨decorateDevice env.dateParse dA,
        some (setKey sa "time" (env.sampleTime (getKey sa "time")))⟩) := by
    simp [refreshMetrics, hdev, hdet, vals, hfetch, mergeSamples, getKey, hne]
  refine ⟨_, hrun, ?_, ?_⟩
  · rw [getKey_setKey, if_pos rfl]
  · rw [getKey_setKey, if_neg (fun hh => hne hh.symm)]

/-- Device A for the C1 witness. -/
def devA : Device :=
  { id := "a1", deviceType := "VIEW", location := { name := "Kitchen" }
    segment := { name := "Home", started := "2020-01-01" } }

/-- Device B for the C1 witness. -/
def devB : Device :=
  { id := "b2", deviceType := "WAVE", location := { name := "Cellar" }
    segment := { name := "Home", started := "2020-01-02" } }

/-- The sample payload A's fetch returns in the C1 witness. -/
def saA : SampleSet := [("radon", "4"), ("time", "1700000000")]

/-- A stale cache entry for device A in the C1 witness prior cache. -/
def oldEntryA : CacheEntry :=
  { dev := { id := "a1", deviceType := "VIEW", location := { name := "Kitchen" },
             segment := { name := "Home", started := 0 } }
    latestSamples := some [("radon", "9")] }

/-- A stale cache entry for device B in the C1 witness prior cache. -/
def oldEntryB : CacheEntry :=
  { dev := { id := "b2", deviceType := "WAVE", location := { name := "Cellar" },
             segment := { name := "Home", started := 0 } }
    latestSamples := some [("temp", "21.5")] }

/-- The C1 witness prior cache, holding entries for both detectors. -/
def priorAB : Cache := [("a1", oldEntryA), ("b2", oldEntryB)]

/-- The C1 witness upstream: both devices listed, A's fetch succeeds, B's
fetch fails. -/
def envPartial : Upstream :=
  { devicesCall := .ok (some [devA, devB])
    samplesCall := fun k =>
      if k = "a1" then .ok (some saA) else .ok none
    dateParse := fun _ => 1577836800000
    sampleTime := fun _ => "Tue Nov 14 2023" }

/-- C1 witness: the partial-failure merge at a concrete two-detector cache. -/
theorem refresh_partial_failure_witness :
    ∃ c, refreshMetrics envPartial priorAB = .ok c ∧
      getKey c devA.id = some ⟨decorateDevice envPartial.dateParse devA,
        some (setKey saA "time" (envPartial.sampleTime (getKey saA "time")))⟩ ∧
      getKey c devB.id = getKey priorAB devB.id :=
  refresh_partial_failure_preserves envPartial priorAB devA devB saA
    (by decide) (by decide) (by decide) rfl rfl rfl (by decide) (by decide)

/-- C6 counterexample: a cache holding one detector entry whose latestSamples
is absent makes the rendering step throw a TypeError (JS
`Object.entries(null)`), instead of completing with that detector skipped. -/
theorem render_null_samples_throws :
    renderCache [("dev1", { dev := sampleDetector, latestSamples := none })] =
      .error .typeError := rfl

/-- C6 (amended): rendering completes for every cache map in which each
detector entry has its sample data present; a detector whose sample object is
empty contributes no metric lines; but a detector entry whose latestSamples is
absent or null makes rendering throw a TypeError rather than being skipped. -/
theorem render_completes_on_present_samples (cache : Cache) (k : String)
    (d : Detector) (rest : Cache)
    (h : ∀ p ∈ cache, p.2.latestSamples ≠ none) :
    (∃ ls, renderCache cache = .ok ls) ∧
    renderCache ((k, { dev := d, latestSamples := some [] }) :: rest) =
      renderCache rest := by
  exact ⟨⟨_, renderCache_present h⟩, rfl⟩

/-- C6 witness: rendering the concrete one-detector cache completes, and a
detector with an empty sample object contributes nothing. -/
theorem render_completes_witness :
    (∃ ls, renderCache sampleCache = .ok ls) ∧
    renderCache [("z2", { dev := sampleDetector, latestSamples := some [] })] =
      renderCache [] :=
  render_completes_on_present_samples sampleCache "z2" sampleDetector [] (by decide)

/-- Reserved-set membership test, spelled out. -/
theorem notMetrics_contains (s : String) :
    notMetrics.contains s = (s == "time" || s == "relayDeviceType") := by
  by_cases h1 : s = "time" <;> by_cases h2 : s = "relayDeviceType" <;>
    simp [notMetrics, h1, h2]

/-- The per-entry rendered lines, with the reserved-set test and the line
format spelled out literally. -/
theorem entryLines_eq (p : String × CacheEntry) :
    entryLines p = ((p.2.latestSamples.getD []).filter fun m =>
        !(m.1 == "time" || m.1 == "relayDeviceType")).map fun m =>
      "airthings_" ++ m.1 ++ "\x7bdevice_id=\"" ++ p.2.dev.id ++
        "\",device_location=\"" ++ p.2.dev.location.name ++
        "\",device_segment=\"" ++ p.2.dev.segment.name ++ "\"\x7d " ++ m.2 := by
  have h1 : ((p.2.latestSamples.getD []).filter fun m => !(notMetrics.contains m.1)) =
      ((p.2.latestSamples.getD []).filter fun m =>
        !(m.1 == "time" || m.1 == "relayDeviceType")) :=
    List.filter_congr (fun m _ => by rw [notMetrics_contains])
  unfold entryLines
  rw [h1]
  rfl

/-- C7: for every cache whose entries carry sample data, the rendered output
is exactly, per cached detector, one line per sample field outside the
reserved set (time, relayDeviceType), each of the literal form
airthings_NAME with device_id, device_location and device_segment labels
followed by the value — and no line at all for the reserved names. -/
theorem render_line_format (cache : Cache)
    (h : ∀ p ∈ cache, p.2.latestSamples ≠ none) :
    renderCache cache = .ok (cache.flatMap fun p =>
      ((p.2.latestSamples.getD []).filter fun m =>
          !(m.1 == "time" || m.1 == "relayDeviceType")).map fun m =>
        "airthings_" ++ m.1 ++ "\x7bdevice_id=\"" ++ p.2.dev.id ++
          "\",device_location=\"" ++ p.2.dev.location.name ++
          "\",device_segment=\"" ++ p.2.dev.segment.name ++ "\"\x7d " ++ m.2) := by
  rw [renderCache_present h]
  exact congrArg Except.ok (List.flatMap_congr fun p _ => entryLines_eq p)

/-- C7 witness: the line format at the concrete one-detector cache. -/
theorem render_line_format_witness :
    renderCache sampleCache = .ok (sampleCache.flatMap fun p =>
      ((p.2.latestSamples.getD []).filter fun m =>
          !(m.1 == "time" || m.1 == "relayDeviceType")).map fun m =>
        "airthings_" ++ m.1 ++ "\x7bdevice_id=\"" ++ p.2.dev.id ++
          "\",device_location=\"" ++ p.2.dev.location.name ++
          "\",device_segment=\"" ++ p.2.dev.segment.name ++ "\"\x7d " ++ m.2) :=
  render_line_format sampleCache (by decide)

/-- A hub device as listed upstream. -/
def hubDevice : Device :=
  { id := "h1", deviceType := "HUB", location := { name := "L" }
    segment := { name := "S", started := "2020-01-01" } }

/-- A prior cache that already holds an entry under the hub's id. -/
def hubPrior : Cache :=
  [("h1", { dev := { id := "h1", deviceType := "HUB", location := { name := "L" },
                     segment := { name := "S", started := 0 } }
            latestSamples := some [("battery", "77")] })]

/-- Upstream with exactly one device, a hub. -/
def envHub : Upstream :=
  { devicesCall := .ok (some [hubDevice])
    samplesCall := fun _ => .ok none
    dateParse := fun _ => 0
    sampleTime := fun _ => "" }

/-- C8 counterexample: the upstream device list contains only the hub `h1`,
yet with a (stale) prior cache already holding an entry under `h1` the scrape
refreshes, keeps that entry, and renders a metric line whose device_id is the
hub's id — the hub does appear in the rendered output. -/
theorem hub_id_from_prior_cache_rendered :
    hubDevice.deviceType = "HUB" ∧
    refreshMetrics envHub hubPrior = .ok hubPrior ∧
    getMetrics envHub 1000000 1000 (some { persistedAt := some 0, samples := hubPrior }) =
      .ok ["airthings_battery\x7bdevice_id=\"h1\",device_location=\"L\",device_segment=\"S\"\x7d 77"] := by
  exact ⟨rfl, rfl, rfl⟩

/-- C8 (amended): a hub in the upstream device list is excluded from the
processing of that list — it is absent from the detector map, no
latest-samples fetch ever targets its id, and the refresh leaves the cache at
its id exactly as the prior cache had it; consequently it is absent from the
refreshed cache (and hence from the rendered output) whenever the prior cache
had no entry under its id.  An entry already in the prior cache under that id
survives, however, since refresh never deletes entries. -/
theorem hub_exclusion_amended {env : Upstream} {devices : List Device}
    {prior c : Cache} (hub : Device)
    (hhub : hub ∈ devices) (htype : hub.deviceType = "HUB")
    (honly : ∀ d ∈ devices, d.id = hub.id → d.deviceType = "HUB")
    (hdev : env.devicesCall = .ok (some devices))
    (hc : refreshMetrics env prior = .ok c) :
    getKey (buildDetectors env.dateParse devices) hub.id = none ∧
    (∀ det ∈ vals (buildDetectors env.dateParse devices), det.id ≠ hub.id) ∧
    getKey c hub.id = getKey prior hub.id ∧
    (getKey prior hub.id = none → getKey c hub.id = none) := by
  have hfetch : ∀ det ∈ vals (buildDetectors env.dateParse devices), det.id ≠ hub.id := by
    intro det hdet
    rcases mem_vals_buildDetectors hdet with ⟨d, hd, hnothub, he⟩
    rw [he]
    intro heq
    have : d.deviceType = "HUB" := honly d hd heq
    rw [deviceIsNotAHub, this] at hnothub
    simp at hnothub
  have huntouched : getKey c hub.id = getKey prior hub.id := by
    apply refreshMetrics_untouched hc
    intro ds hds det hdet
    have hdd : ds = devices := by
      have h2 := hds.symm.trans hdev
      simpa using h2
    subst hdd
    exact hfetch det hdet
  refine ⟨?_, hfetch, huntouched, fun hnone => huntouched.trans hnone⟩
  unfold buildDetectors
  rw [getKey_foldl_setKey Device.id (decorateDevice env.dateParse)]
  · rfl
  · intro d hd heq
    have hmem := List.mem_filter.mp hd
    have : d.deviceType = "HUB" := honly d hmem.1 heq
    have h3 := hmem.2
    rw [deviceIsNotAHub, this] at h3
    simp at h3

/-- C8 witness: the amended exclusion at the concrete hub-only device list
over an empty prior cache. -/
theorem hub_exclusion_amended_witness :
    getKey (buildDetectors envHub.dateParse [hubDevice]) hubDevice.id = none ∧
    (∀ det ∈ vals (buildDetectors envHub.dateParse [hubDevice]), det.id ≠ hubDevice.id) ∧
    getKey ([] : Cache) hubDevice.id = getKey ([] : Cache) hubDevice.id ∧
    (getKey ([] : Cache) hubDevice.id = none → getKey ([] : Cache) hubDevice.id = none) :=
  @hub_exclusion_amended envHub [hubDevice] [] [] hubDevice
    (by decide) rfl (by decide) rfl rfl

/-- C10: refreshMetrics never deletes — every device id with an entry in the
prior cache has an entry in the returned cache, whatever the upstream calls
produced; and an id that does not occur in the fetched device list keeps its
prior entry byte for byte, so a device that disappears upstream continues to
be rendered with its last cached samples. -/
theorem cache_keys_only_grow {env : Upstream} {prior c : Cache}
    (hc : refreshMetrics env prior = .ok c) :
    (∀ k, (getKey prior k).isSome → (getKey c k).isSome) ∧
    (∀ devices k, env.devicesCall = .ok (some devices) →
      (∀ d ∈ devices, d.id ≠ k) → getKey c k = getKey prior k) := by
  constructor
  · exact fun k h => refreshMetrics_keys_grow hc k h
  · intro devices k hdev hk
    apply refreshMetrics_untouched hc
    intro ds hds det hdet
    have hdd : ds = devices := by
      have h2 := hds.symm.trans hdev
      simpa using h2
    subst hdd
    rcases mem_vals_buildDetectors hdet with ⟨d, hd, _, he⟩
    rw [he]
    exact hk d hd

/-- C10 witness: key growth and untouched entries at a concrete refresh whose
device-list fetch failed. -/
theorem cache_keys_only_grow_witness :
    (getKey sampleCache "dev1").isSome :=
  (@cache_keys_only_grow envDevicesFail sampleCache sampleCache rfl).1
    "dev1" (by decide)

end Airthings
